import Mathlib

/-!
# Verification of the glacier-sim mass-balance model

A shallow embedding of `GlacierModel` (src/unnamed/part_001) in Lean 4.
JavaScript numbers are modelled as exact rationals (`ℚ`); all branch
conditions in the source are order comparisons that behave identically
over `ℚ`.  Arrays become `List`s, `Array.prototype.shift()` becomes
`List.tail`, `Array.prototype.slice(-7)` becomes `takeLast 7`, and
JS objects become structures.  `null`-able fields become `Option`s.
-/

/-- One day's weather inputs, as consumed by the model. -/
structure Observation where
  date : ℚ
  temperature : ℚ
  windSpeed : ℚ
  precipitation : ℚ
deriving DecidableEq

/-- A record stored in the model's bounded history. -/
structure HistoryEntry where
  date : ℚ
  dailyChange : ℚ
  healthIndex : ℚ
  sourceLabel : String
deriving DecidableEq

/-- The configurable rate/threshold parameters (`this.params`). -/
structure Params where
  accumulationRate : ℚ
  meltRate : ℚ
  sublimationRate : ℚ
  advancingThreshold : ℚ
  recedingThreshold : ℚ
deriving DecidableEq

/-- The `DEFAULTS` object of the source. -/
def DEFAULTS : Params :=
  ⟨1/10, 1/20, 1/100, 1/10, -(1/10)⟩

/-- Provenance/reliability side-channel (`this.dataContext`).
`ageHours` is `null`-able, hence an `Option`. -/
structure DataContext where
  sourceLabel : String
  ageHours : Option ℚ
  isFallback : Bool
  isForecast : Bool
  isScenario : Bool
  isStale : Bool
deriving DecidableEq

/-- The mutable state of a `GlacierModel` instance. -/
structure GlacierModel where
  params : Params
  healthIndex : ℚ
  history : List HistoryEntry
  maxHistory : ℕ
  lastSource : String
  dataContext : DataContext
deriving DecidableEq

/-- The constructor: `new GlacierModel(options)`.  Merging
`{ ...DEFAULTS, ...options }` always yields a full `Params` record, so
the embedding is parametrised by the merged result. -/
def GlacierModel.new (params : Params) : GlacierModel :=
  { params := params
    healthIndex := 100
    history := []
    maxHistory := 30
    lastSource := "Observed"
    dataContext := ⟨"Observed", none, false, false, false, false⟩ }

/-- A model freshly constructed with no option overrides. -/
def freshModel : GlacierModel :=
  GlacierModel.new DEFAULTS

/-- `calculateDailyMassChange({temperature, windSpeed, precipitation})`. -/
def GlacierModel.calculateDailyMassChange (m : GlacierModel) (obs : Observation) : ℚ :=
  let accumulation :=
    if obs.temperature ≤ 1 then obs.precipitation * m.params.accumulationRate else 0
  let melt := if obs.temperature > 0 then obs.temperature * m.params.meltRate else 0
  let sublimation := obs.windSpeed * m.params.sublimationRate
  accumulation - melt - sublimation

/-- The history entry pushed by one `applyDailyObservation` call. -/
def GlacierModel.newEntry (m : GlacierModel) (obs : Observation)
    (sourceLabel : String) : HistoryEntry :=
  let dailyChange := m.calculateDailyMassChange obs
  { date := obs.date
    dailyChange := dailyChange
    healthIndex := max 0 (min 200 (m.healthIndex + dailyChange))
    sourceLabel := sourceLabel }

/-- `applyDailyObservation(observation, sourceLabel)`:
clamp the health index, record the source, push a history entry, and
`shift()` (drop the oldest entry) if the history now exceeds
`maxHistory`. -/
def GlacierModel.applyDailyObservation (m : GlacierModel) (obs : Observation)
    (sourceLabel : String) : GlacierModel :=
  let dailyChange := m.calculateDailyMassChange obs
  let healthIndex := max 0 (min 200 (m.healthIndex + dailyChange))
  let history :=
    m.history ++ [{ date := obs.date
                    dailyChange := dailyChange
                    healthIndex := healthIndex
                    sourceLabel := sourceLabel }]
  let history := if history.length > m.maxHistory then history.tail else history
  { m with healthIndex := healthIndex, lastSource := sourceLabel, history := history }

/-- `history.slice(-n)`: the last `n` elements (all of them when the
list is shorter than `n`). -/
def takeLast (n : ℕ) (l : List α) : List α :=
  l.drop (l.length - n)

/-- `getSevenDayTrend()`: mean of `dailyChange` over the last-7 window,
`0` on an empty history. -/
def GlacierModel.getSevenDayTrend (m : GlacierModel) : ℚ :=
  let window := takeLast 7 m.history
  if window.length = 0 then 0
  else (window.map fun e => e.dailyChange).sum / window.length

/-- `getTrendWindow()`. -/
def GlacierModel.getTrendWindow (m : GlacierModel) : List HistoryEntry :=
  takeLast 7 m.history

/-- The quantity under the square root in `getTrendVariance()`: the
population variance of `dailyChange` over the last-7 window (`0` when
the window has fewer than 2 entries).  The source returns
`Math.sqrt` of this; since the square root of a rational is irrational
in general, the embedding carries the radicand and compares it against
squared thresholds — `Real.sqrt v ≥ c ↔ v ≥ c²` for `v, c ≥ 0`
(see `sqrt_threshold_iff` below), so every comparison the source makes
on the standard deviation is represented exactly. -/
def GlacierModel.getTrendVarianceSq (m : GlacierModel) : ℚ :=
  let window := m.getTrendWindow
  if window.length < 2 then 0
  else
    let values := window.map fun e => e.dailyChange
    let mean := values.sum / values.length
    (values.map fun v => (v - mean) ^ 2).sum / values.length

/-- The record returned by `getState()`. -/
structure StateView where
  healthIndex : ℚ
  dailyChange : ℚ
  sevenDayTrend : ℚ
  state : String
  lastSource : String
deriving DecidableEq

/-- `getState()`: the two threshold comparisons are performed in
sequence against the same trend, the second assignment overwriting the
first, exactly as in the source (`let state = 'Stable'; if (...)
state = 'Advancing'; if (...) state = 'Receding';`). -/
def GlacierModel.getState (m : GlacierModel) : StateView :=
  let trend := m.getSevenDayTrend
  let state := "Stable"
  let state := if trend > m.params.advancingThreshold then "Advancing" else state
  let state := if trend < m.params.recedingThreshold then "Receding" else state
  let latest := m.history.getLast?
  { healthIndex := m.healthIndex
    dailyChange := match latest with
      | some e => e.dailyChange
      | none => 0
    sevenDayTrend := trend
    state := state
    lastSource := m.lastSource }

/-- `getHistory()` (the copy `[...this.history]`). -/
def GlacierModel.getHistory (m : GlacierModel) : List HistoryEntry :=
  m.history

/-- One alert record. -/
structure Alert where
  id : String
  level : String
  label : String
  detail : String
deriving DecidableEq

/-- The `critical-loss` alert pushed when `healthIndex < 50`. -/
def criticalLossAlert : Alert :=
  ⟨"critical-loss", "critical", "Critical Loss Phase",
    "Health index below 50 indicates severe structural loss."⟩

/-- The `integrity-warning` alert pushed when `50 ≤ healthIndex < 70`. -/
def integrityWarningAlert : Alert :=
  ⟨"integrity-warning", "warning", "Integrity Warning",
    "Health index below 70 signals weakening glacier integrity."⟩

/-- The `high-melt` alert pushed when `dailyChange < -2.5`. -/
def highMeltAlert : Alert :=
  ⟨"high-melt", "warning", "High Melt Event",
    "Daily mass loss exceeds 2.5 units."⟩

/-- The `accelerated-loss` alert pushed when `sevenDayTrend < -1.2`. -/
def acceleratedLossAlert : Alert :=
  ⟨"accelerated-loss", "critical", "Accelerated Loss Detected",
    "7-day trend indicates rapid retreat."⟩

/-- The `low-reliability` alert pushed when `isFallback || isStale`;
its detail text depends on `isStale`. -/
def lowReliabilityAlert (isStale : Bool) : Alert :=
  ⟨"low-reliability", "info", "Low Data Reliability",
    if isStale then "Live data is stale; results may be delayed."
    else "Fallback or simulated data in use."⟩

/-- `getAlerts()`: four sequential checks appending to one list, the
first two joined by `else if`. -/
def GlacierModel.getAlerts (m : GlacierModel) : List Alert :=
  let state := m.getState
  let a1 : List Alert :=
    if state.healthIndex < 50 then [criticalLossAlert]
    else if state.healthIndex < 70 then [integrityWarningAlert]
    else []
  let a2 : List Alert := if state.dailyChange < -(5/2) then [highMeltAlert] else []
  let a3 : List Alert :=
    if state.sevenDayTrend < -(6/5) then [acceleratedLossAlert] else []
  let a4 : List Alert :=
    if m.dataContext.isFallback || m.dataContext.isStale then
      [lowReliabilityAlert m.dataContext.isStale]
    else []
  a1 ++ a2 ++ a3 ++ a4

/-- The record returned by `getConfidence()`.  The source's `variance`
field holds `Math.sqrt` of the population variance; the embedding
carries the radicand (`varianceSq`), which determines it. -/
structure Confidence where
  level : String
  reasons : List String
  varianceSq : ℚ
deriving DecidableEq

/-- The "Live data is fresh" reason of `getConfidence`: pushed when
`ageHours` is a number, is at most 2, and the data is not stale. -/
def freshReason (ageHours : Option ℚ) (isStale : Bool) : List String :=
  match ageHours with
  | some age => if age ≤ 2 ∧ isStale = false then ["Live data is fresh"] else []
  | none => []

/-- `getConfidence()`.  Each comparison `stddev ≥ c` of the source
(with `stddev = Math.sqrt varianceSq`) is embedded as the equivalent
`varianceSq ≥ c²` comparison (both sides are nonnegative). -/
def GlacierModel.getConfidence (m : GlacierModel) : Confidence :=
  let varianceSq := m.getTrendVarianceSq
  let c := m.dataContext
  let r1 : List String :=
    if c.isFallback || c.isScenario then ["Using simulated or scenario data"] else []
  let r2 : List String := if c.isForecast then ["Using forecast data"] else []
  let r3 : List String := if c.isStale then ["Live data is stale"] else []
  let r4 : List String := freshReason c.ageHours c.isStale
  let r5 : List String :=
    if varianceSq ≥ (6/5) ^ 2 then ["High volatility in 7-day trend"]
    else if varianceSq ≥ (3/5) ^ 2 then ["Moderate trend variability"]
    else ["Low trend variability"]
  let reasons := r1 ++ r2 ++ r3 ++ r4 ++ r5
  let level :=
    if c.isFallback || c.isScenario || c.isStale || decide (varianceSq ≥ (3/2) ^ 2) then
      "Low"
    else if c.isForecast || decide (varianceSq ≥ (3/5) ^ 2) then "Medium"
    else "High"
  ⟨level, reasons, varianceSq⟩

/-- JavaScript `x % y` for the nonnegative operands reached in
`getTimeToLoss` (there `x = daysLeft > 0` and `y = 365`): the
remainder `x - y·⌊x/y⌋`. -/
def jsMod (x y : ℚ) : ℚ :=
  x - y * (⌊x / y⌋ : ℤ)

/-- JavaScript `Math.round`: round half toward positive infinity. -/
def jsRound (x : ℚ) : ℤ :=
  ⌊x + 1/2⌋

/-- The record returned by `getTimeToLoss`; `days` and `years` are
`null` on the `stable` branch, hence `Option`s. -/
structure Projection where
  status : String
  message : String
  days : Option ℚ
  years : Option ℤ
deriving DecidableEq

/-- `getTimeToLoss(collapseThreshold)`.  Note the declining branch
returns `days: daysLeft` (the raw quotient); the rounded
`daysLeft % 365` is interpolated only into the message. -/
def GlacierModel.getTimeToLoss (m : GlacierModel) (collapseThreshold : ℚ) : Projection :=
  let state := m.getState
  let trend := state.sevenDayTrend
  let remaining := state.healthIndex - collapseThreshold
  if remaining ≤ 0 then
    ⟨"collapsed", "Threshold already crossed.", some 0, some 0⟩
  else if trend ≥ -(1/20) then
    ⟨"stable", "No collapse projected under current conditions.", none, none⟩
  else
    let daysLeft := remaining / |trend|
    let years := ⌊daysLeft / 365⌋
    let days := jsRound (jsMod daysLeft 365)
    ⟨"declining",
      "~" ++ toString years ++ " years, " ++ toString days ++ " days remaining.",
      some daysLeft, some years⟩

/-- The object returned by `getSnapshot()` and consumed by
`setSnapshot`: `setSnapshot` accepts objects with missing fields, so
each field is an `Option`. -/
structure Snapshot where
  healthIndex : Option ℚ
  history : Option (List HistoryEntry)
  lastSource : Option String
deriving DecidableEq

/-- `getSnapshot()`: all three fields present. -/
def GlacierModel.getSnapshot (m : GlacierModel) : Snapshot :=
  ⟨some m.healthIndex, some m.getHistory, some m.lastSource⟩

/-- `setSnapshot(snapshot)`.  `snapshot.healthIndex ?? 100` and the
`Array.isArray` guard become `Option.getD`; `snapshot.lastSource ||
'Observed'` treats the empty string as falsy, so a present-but-empty
`lastSource` is replaced by `"Observed"`. -/
def GlacierModel.setSnapshot (m : GlacierModel) (s : Snapshot) : GlacierModel :=
  { m with
    healthIndex := s.healthIndex.getD 100
    history := s.history.getD []
    lastSource :=
      match s.lastSource with
      | none => "Observed"
      | some str => if str = "" then "Observed" else str }

/-- `resetWithObservation(observation?, sourceLabel)`. -/
def GlacierModel.resetWithObservation (m : GlacierModel) (obs : Option Observation)
    (sourceLabel : String) : GlacierModel :=
  let m' := { m with healthIndex := 100, history := [], lastSource := sourceLabel }
  match obs with
  | some o => m'.applyDailyObservation o sourceLabel
  | none => m'

/-- A sequence of `applyDailyObservation` calls, oldest first. -/
def applySeq (m : GlacierModel) (obss : List (Observation × String)) : GlacierModel :=
  obss.foldl (fun acc p => acc.applyDailyObservation p.1 p.2) m

/-- The history entries appended, in order, by the sequence of
`applyDailyObservation` calls in `applySeq m obss` (eviction removes
old entries but never changes which entries are appended). -/
def entriesOf (m : GlacierModel) : List (Observation × String) → List HistoryEntry
  | [] => []
  | p :: rest =>
    m.newEntry p.1 p.2 :: entriesOf (m.applyDailyObservation p.1 p.2) rest

/-! Concrete inputs used to exercise the theorems below. -/

/-- A cold-free day: temperature 2 °C, no wind, no precipitation;
its daily mass change under default parameters is `-1/10`. -/
def obsA : Observation :=
  ⟨0, 2, 0, 0⟩

/-- A fresh model after one observation of `obsA`:
`healthIndex = 999/10`, seven-day trend `-1/10`. -/
def m1 : GlacierModel :=
  freshModel.applyDailyObservation obsA "Observed"

/-- A fresh model after one observation recorded with the empty string
as its source label. -/
def m2 : GlacierModel :=
  freshModel.applyDailyObservation obsA ""

/-- A model constructed with an inverted threshold pair:
`advancingThreshold = -1`, `recedingThreshold = 1`. -/
def invertedModel : GlacierModel :=
  GlacierModel.new ⟨1/10, 1/20, 1/100, -1, 1⟩

/-- Thirty-one identical daily observations. -/
def xs31 : List (Observation × String) :=
  List.replicate 31 (obsA, "Observed")

/-- A fresh model with its health index forced to 45. -/
def m45 : GlacierModel :=
  { freshModel with healthIndex := 45 }

/-- A fresh model with its health index forced to 65. -/
def m65 : GlacierModel :=
  { freshModel with healthIndex := 65 }

/-- A fresh model with its health index forced to 80. -/
def m80 : GlacierModel :=
  { freshModel with healthIndex := 80 }

/-- The history entry produced by applying `obsA` to a fresh model. -/
def entryB : HistoryEntry :=
  ⟨0, -(1/10), 999/10, "Observed"⟩

/-- A model whose history holds three entries. -/
def mW3 : GlacierModel :=
  { freshModel with history := List.replicate 3 entryB }

/-- A model whose history holds eight entries. -/
def mW8 : GlacierModel :=
  { freshModel with history := List.replicate 8 entryB }

/-- Recognizer for the three variance-band reason strings of
`getConfidence`. -/
def isVarianceBandReason (r : String) : Bool :=
  r == "High volatility in 7-day trend" || r == "Moderate trend variability" ||
    r == "Low trend variability"

/-! ## Theorems -/

/-- Justification that comparing the radicand against squared
thresholds embeds the source's comparisons on the standard deviation
exactly: for nonnegative `v` and `c`, `Math.sqrt v ≥ c ↔ v ≥ c²`. -/
theorem sqrt_threshold_iff (v c : ℚ) (hv : 0 ≤ v) (hc : 0 ≤ c) :
    ((c : ℝ) ≤ Real.sqrt (v : ℝ)) ↔ (c ^ 2 ≤ v) := by
  rw [Real.le_sqrt (by exact_mod_cast hc) (by exact_mod_cast hv)]
  exact_mod_cast Iff.rfl

theorem healthIndex_bounds_apply (m : GlacierModel) (obs : Observation) (src : String) :
    0 ≤ (m.applyDailyObservation obs src).healthIndex ∧
      (m.applyDailyObservation obs src).healthIndex ≤ 200 :=
  ⟨le_max_left 0 _, max_le (by norm_num) (min_le_left _ _)⟩

theorem applySeq_healthIndex_aux :
    ∀ (obss : List (Observation × String)) (m : GlacierModel),
      0 ≤ m.healthIndex → m.healthIndex ≤ 200 →
      0 ≤ (applySeq m obss).healthIndex ∧ (applySeq m obss).healthIndex ≤ 200
  | [], _, h0, h2 => ⟨h0, h2⟩
  | p :: rest, m, _, _ =>
    applySeq_healthIndex_aux rest (m.applyDailyObservation p.1 p.2)
      (healthIndex_bounds_apply m p.1 p.2).1 (healthIndex_bounds_apply m p.1 p.2).2

/-- C2: starting from any freshly constructed model, after every
sequence of `applyDailyObservation` calls (any magnitudes and signs of
temperature, wind speed and precipitation) the health index stays in
`[0, 200]`. -/
theorem applySeq_healthIndex_bounded (p : Params) (obss : List (Observation × String)) :
    0 ≤ (applySeq (GlacierModel.new p) obss).healthIndex ∧
      (applySeq (GlacierModel.new p) obss).healthIndex ≤ 200 :=
  applySeq_healthIndex_aux obss (GlacierModel.new p) (by norm_num [GlacierModel.new])
    (by norm_num [GlacierModel.new])

/-- C4: `calculateDailyMassChange` is `accumulation − melt −
sublimation` with accumulation gated by `temperature ≤ 1`, melt by
`temperature > 0` and sublimation unconditional; at temperature 0 the
melt term vanishes, at temperature 1 accumulation still applies, both
terms apply on `(0, 1]`, and the default-parameter evaluation at
`{temperature: 0.5, windSpeed: 10, precipitation: 5}` is `0.375`. -/
theorem calculateDailyMassChange_spec :
    (∀ (m : GlacierModel) (obs : Observation),
      m.calculateDailyMassChange obs =
        (if obs.temperature ≤ 1 then obs.precipitation * m.params.accumulationRate else 0)
          - (if obs.temperature > 0 then obs.temperature * m.params.meltRate else 0)
          - obs.windSpeed * m.params.sublimationRate) ∧
    (∀ (m : GlacierModel) (obs : Observation), obs.temperature = 0 →
      m.calculateDailyMassChange obs =
        obs.precipitation * m.params.accumulationRate
          - obs.windSpeed * m.params.sublimationRate) ∧
    (∀ (m : GlacierModel) (obs : Observation), obs.temperature = 1 →
      m.calculateDailyMassChange obs =
        obs.precipitation * m.params.accumulationRate - m.params.meltRate
          - obs.windSpeed * m.params.sublimationRate) ∧
    (∀ (m : GlacierModel) (obs : Observation), 0 < obs.temperature → obs.temperature ≤ 1 →
      m.calculateDailyMassChange obs =
        obs.precipitation * m.params.accumulationRate
          - obs.temperature * m.params.meltRate
          - obs.windSpeed * m.params.sublimationRate) ∧
    freshModel.calculateDailyMassChange ⟨0, 1/2, 10, 5⟩ = 3/8 := by
  refine ⟨fun m obs => rfl, fun m obs h => ?_, fun m obs h => ?_, fun m obs h0 h1 => ?_, ?_⟩
  · simp [GlacierModel.calculateDailyMassChange, h]
  · simp [GlacierModel.calculateDailyMassChange, h]
  · simp [GlacierModel.calculateDailyMassChange, h0, h1, not_le.mpr h0]
  · norm_num [GlacierModel.calculateDailyMassChange, freshModel, GlacierModel.new, DEFAULTS]

/-- C4 witness: the both-terms case instantiated at the default model
and `{temperature: 0.5, windSpeed: 10, precipitation: 5}`. -/
theorem calculateDailyMassChange_spec_witness :
    ((0 : ℚ) < 1/2 ∧ (1/2 : ℚ) ≤ 1) ∧
    freshModel.calculateDailyMassChange ⟨0, 1/2, 10, 5⟩ =
      5 * freshModel.params.accumulationRate - (1/2) * freshModel.params.meltRate
        - 10 * freshModel.params.sublimationRate :=
  ⟨⟨by norm_num, by norm_num⟩,
    calculateDailyMassChange_spec.2.2.2.1 freshModel ⟨0, 1/2, 10, 5⟩ (by norm_num) (by norm_num)⟩

/-- C5: `getSevenDayTrend` returns 0 on an empty history, the mean of
all entries when the history has fewer than 7, and the mean of exactly
the last 7 entries otherwise. -/
theorem getSevenDayTrend_spec :
    (∀ m : GlacierModel, m.history = [] → m.getSevenDayTrend = 0) ∧
    (∀ m : GlacierModel, 0 < m.history.length → m.history.length < 7 →
      m.getSevenDayTrend =
        (m.history.map fun e => e.dailyChange).sum / m.history.length) ∧
    (∀ m : GlacierModel, 7 ≤ m.history.length →
      m.getSevenDayTrend =
        ((m.history.drop (m.history.length - 7)).map fun e => e.dailyChange).sum / 7) := by
  refine ⟨fun m h => ?_, fun m h0 h7 => ?_, fun m h7 => ?_⟩
  · simp [GlacierModel.getSevenDayTrend, takeLast, h]
  · have heq : takeLast 7 m.history = m.history := by
      unfold takeLast
      rw [Nat.sub_eq_zero_of_le (le_of_lt h7), List.drop_zero]
    simp only [GlacierModel.getSevenDayTrend, heq]
    rw [if_neg (by omega)]
  · have hlen : (takeLast 7 m.history).length = 7 := by
      unfold takeLast
      rw [List.length_drop]
      omega
    show (if (takeLast 7 m.history).length = 0 then (0 : ℚ)
        else ((takeLast 7 m.history).map fun e => e.dailyChange).sum /
          ((takeLast 7 m.history).length : ℚ)) = _
    rw [hlen]
    norm_num [takeLast]

/-- C5 witness: the short-history and full-window cases instantiated
at concrete three- and eight-entry models. -/
theorem getSevenDayTrend_spec_witness :
    (0 < mW3.history.length ∧ mW3.history.length < 7 ∧
      mW3.getSevenDayTrend =
        (mW3.history.map fun e => e.dailyChange).sum / mW3.history.length) ∧
    (7 ≤ mW8.history.length ∧
      mW8.getSevenDayTrend =
        ((mW8.history.drop (mW8.history.length - 7)).map fun e => e.dailyChange).sum / 7) :=
  ⟨⟨by simp [mW3], by simp [mW3],
      getSevenDayTrend_spec.2.1 mW3 (by simp [mW3]) (by simp [mW3])⟩,
    ⟨by simp [mW8],
      getSevenDayTrend_spec.2.2 mW8 (by simp [mW8])⟩⟩

/-- C9: when the seven-day trend exceeds `advancingThreshold` and is
simultaneously below `recedingThreshold` (an inverted threshold pair),
`getState` reports `"Receding"`: the receding comparison runs second
and overwrites the advancing assignment. -/
theorem getState_receding_overwrites (m : GlacierModel)
    (hadv : m.getSevenDayTrend > m.params.advancingThreshold)
    (hrec : m.getSevenDayTrend < m.params.recedingThreshold) :
    m.getState.state = "Receding" := by
  simp [GlacierModel.getState, hadv, hrec]

/-- C9 witness: a model built with `advancingThreshold = -1` and
`recedingThreshold = 1`; its empty history gives trend 0, which is
both above the advancing and below the receding threshold. -/
theorem getState_receding_overwrites_witness :
    (invertedModel.getSevenDayTrend > invertedModel.params.advancingThreshold ∧
      invertedModel.getSevenDayTrend < invertedModel.params.recedingThreshold) ∧
    invertedModel.getState.state = "Receding" :=
  ⟨⟨by norm_num [invertedModel, GlacierModel.new, GlacierModel.getSevenDayTrend, takeLast],
      by norm_num [invertedModel, GlacierModel.new, GlacierModel.getSevenDayTrend, takeLast]⟩,
    getState_receding_overwrites invertedModel
      (by norm_num [invertedModel, GlacierModel.new, GlacierModel.getSevenDayTrend, takeLast])
      (by norm_num [invertedModel, GlacierModel.new, GlacierModel.getSevenDayTrend, takeLast])⟩

theorem getState_healthIndex (m : GlacierModel) : m.getState.healthIndex = m.healthIndex :=
  rfl

theorem getState_sevenDayTrend (m : GlacierModel) :
    m.getState.sevenDayTrend = m.getSevenDayTrend :=
  rfl

theorem getState_lastSource (m : GlacierModel) : m.getState.lastSource = m.lastSource :=
  rfl

/-- C10: `resetWithObservation` leaves `params`, `dataContext` (and
`maxHistory`) untouched for every prior state and context, and
reinitializes only `healthIndex`, `history` and `lastSource`,
re-applying the observation when one is supplied. -/
theorem resetWithObservation_frame (m : GlacierModel) (obs : Option Observation)
    (label : String) (hmax : m.maxHistory = 30) :
    ((m.resetWithObservation obs label).params = m.params) ∧
    ((m.resetWithObservation obs label).dataContext = m.dataContext) ∧
    ((m.resetWithObservation obs label).maxHistory = m.maxHistory) ∧
    ((m.resetWithObservation obs label).lastSource = label) ∧
    ((m.resetWithObservation obs label).healthIndex =
      (match obs with
        | none => 100
        | some o => max 0 (min 200 (100 + m.calculateDailyMassChange o)))) ∧
    ((m.resetWithObservation obs label).history =
      (match obs with
        | none => []
        | some o => [⟨o.date, m.calculateDailyMassChange o,
            max 0 (min 200 (100 + m.calculateDailyMassChange o)), label⟩])) := by
  cases obs with
  | none => simp [GlacierModel.resetWithObservation]
  | some o =>
    simp [GlacierModel.resetWithObservation, GlacierModel.applyDailyObservation,
      GlacierModel.calculateDailyMassChange, hmax]

/-- C10 witness: the frame property instantiated at the default model
and a supplied observation. -/
theorem resetWithObservation_frame_witness :
    freshModel.maxHistory = 30 ∧
    (freshModel.resetWithObservation (some obsA) "Forecast").params = freshModel.params ∧
    (freshModel.resetWithObservation (some obsA) "Forecast").dataContext =
      freshModel.dataContext :=
  ⟨rfl, (resetWithObservation_frame freshModel (some obsA) "Forecast" rfl).1,
    (resetWithObservation_frame freshModel (some obsA) "Forecast" rfl).2.1⟩

/-- C1 (amended): `getTimeToLoss` returns the `collapsed` record when
`remaining ≤ 0` regardless of trend, the `stable` record when the
trend is in the dead band `≥ -0.05`, and otherwise the `declining`
record whose `days` field is the raw `daysLeft = remaining/|trend|`
and whose `years` field is `⌊daysLeft/365⌋`; the rounded
`daysLeft mod 365` appears only in the message text. -/
theorem getTimeToLoss_spec (m : GlacierModel) (threshold : ℚ) :
    (m.healthIndex - threshold ≤ 0 →
      m.getTimeToLoss threshold =
        ⟨"collapsed", "Threshold already crossed.", some 0, some 0⟩) ∧
    (0 < m.healthIndex - threshold → -(1/20) ≤ m.getSevenDayTrend →
      m.getTimeToLoss threshold =
        ⟨"stable", "No collapse projected under current conditions.", none, none⟩) ∧
    (0 < m.healthIndex - threshold → m.getSevenDayTrend < -(1/20) →
      m.getTimeToLoss threshold =
        ⟨"declining",
          "~" ++ toString (⌊((m.healthIndex - threshold) / |m.getSevenDayTrend|) / 365⌋ : ℤ)
            ++ " years, "
            ++ toString (jsRound (jsMod ((m.healthIndex - threshold) / |m.getSevenDayTrend|) 365))
            ++ " days remaining.",
          some ((m.healthIndex - threshold) / |m.getSevenDayTrend|),
          some ⌊((m.healthIndex - threshold) / |m.getSevenDayTrend|) / 365⌋⟩) := by
  refine ⟨fun hr => ?_, fun hr ht => ?_, fun hr ht => ?_⟩
  · unfold GlacierModel.getTimeToLoss
    rw [if_pos (show m.getState.healthIndex - threshold ≤ 0 from hr)]
  · unfold GlacierModel.getTimeToLoss
    rw [if_neg (show ¬(m.getState.healthIndex - threshold ≤ 0) from not_le.mpr hr),
      if_pos (show m.getState.sevenDayTrend ≥ -(1/20) from ht)]
  · unfold GlacierModel.getTimeToLoss
    rw [if_neg (show ¬(m.getState.healthIndex - threshold ≤ 0) from not_le.mpr hr),
      if_neg (show ¬(m.getState.sevenDayTrend ≥ -(1/20)) from not_le.mpr ht)]
    rfl

/-- C1 witness: the declining branch instantiated at a model one
observation past fresh (`healthIndex = 999/10`, trend `-1/10`) with
the default threshold 40. -/
theorem getTimeToLoss_spec_witness :
    (0 < m1.healthIndex - 40 ∧ m1.getSevenDayTrend < -(1/20)) ∧
    m1.getTimeToLoss 40 =
      ⟨"declining",
        "~" ++ toString (⌊((m1.healthIndex - 40) / |m1.getSevenDayTrend|) / 365⌋ : ℤ)
          ++ " years, "
          ++ toString (jsRound (jsMod ((m1.healthIndex - 40) / |m1.getSevenDayTrend|) 365))
          ++ " days remaining.",
        some ((m1.healthIndex - 40) / |m1.getSevenDayTrend|),
        some ⌊((m1.healthIndex - 40) / |m1.getSevenDayTrend|) / 365⌋⟩ :=
  ⟨⟨by norm_num [m1, freshModel, GlacierModel.new, GlacierModel.applyDailyObservation,
        GlacierModel.calculateDailyMassChange, DEFAULTS, obsA, min_def, max_def],
      by norm_num [m1, freshModel, GlacierModel.new, GlacierModel.applyDailyObservation,
        GlacierModel.calculateDailyMassChange, GlacierModel.getSevenDayTrend, takeLast,
        DEFAULTS, obsA, min_def, max_def]⟩,
    (getTimeToLoss_spec m1 40).2.2
      (by norm_num [m1, freshModel, GlacierModel.new, GlacierModel.applyDailyObservation,
        GlacierModel.calculateDailyMassChange, DEFAULTS, obsA, min_def, max_def])
      (by norm_num [m1, freshModel, GlacierModel.new, GlacierModel.applyDailyObservation,
        GlacierModel.calculateDailyMassChange, GlacierModel.getSevenDayTrend, takeLast,
        DEFAULTS, obsA, min_def, max_def])⟩

/-- C1 counterexample: at a model one observation past fresh
(`healthIndex = 999/10`, trend `-1/10`) with threshold 40,
`daysLeft = 599`, yet the returned `days` field is `some 599` and not
the claimed `round(daysLeft mod 365) = 234`. -/
theorem getTimeToLoss_days_counterexample :
    (m1.getTimeToLoss 40).status = "declining" ∧
    (m1.getTimeToLoss 40).days = some 599 ∧
    jsRound (jsMod 599 365) = 234 ∧
    (m1.getTimeToLoss 40).days ≠ some ((jsRound (jsMod 599 365) : ℤ) : ℚ) := by
  have hh : m1.getState.healthIndex = 999/10 := by
    norm_num [m1, freshModel, GlacierModel.new, GlacierModel.applyDailyObservation,
      GlacierModel.calculateDailyMassChange, GlacierModel.getState, DEFAULTS, obsA,
      min_def, max_def]
  have htr : m1.getState.sevenDayTrend = -(1/10) := by
    norm_num [m1, freshModel, GlacierModel.new, GlacierModel.applyDailyObservation,
      GlacierModel.calculateDailyMassChange, GlacierModel.getState,
      GlacierModel.getSevenDayTrend, takeLast, DEFAULTS, obsA, min_def, max_def]
  have e : m1.getTimeToLoss 40 =
      ⟨"declining",
        "~" ++ toString (⌊(599 : ℚ) / 365⌋ : ℤ) ++ " years, "
          ++ toString (jsRound (jsMod 599 365)) ++ " days remaining.",
        some 599, some ⌊(599 : ℚ) / 365⌋⟩ := by
    unfold GlacierModel.getTimeToLoss
    rw [if_neg (by rw [hh]; norm_num), if_neg (by rw [htr]; norm_num)]
    simp only [hh, htr]
    norm_num [abs]
  refine ⟨by rw [e], by rw [e], by norm_num [jsRound, jsMod], ?_⟩
  rw [e]
  norm_num [jsRound, jsMod]

/-- C8 counterexample: a model whose last observation carried the
empty string as source label does not round-trip: `setSnapshot`
replaces the falsy `lastSource` with `"Observed"`, so `getState`
differs afterwards. -/
theorem snapshot_roundtrip_counterexample :
    (m2.setSnapshot m2.getSnapshot).getState ≠ m2.getState := by
  intro h
  have h2 : (m2.setSnapshot m2.getSnapshot).getState.lastSource =
      m2.getState.lastSource := by rw [h]
  have e1 : (m2.setSnapshot m2.getSnapshot).getState.lastSource = "Observed" := rfl
  have e2 : m2.getState.lastSource = "" := rfl
  rw [e1, e2] at h2
  exact absurd h2 (by decide)

/-- C8 (amended): `setSnapshot(getSnapshot())` always restores
`healthIndex` and the history (hence `getHistory`) and never touches
`dataContext`; it is a full identity on the model — in particular on
`getState` — provided `lastSource` is not the empty string (the
source's `snapshot.lastSource || 'Observed'` treats `""` as falsy). -/
theorem setSnapshot_getSnapshot_spec (m : GlacierModel) :
    ((m.setSnapshot m.getSnapshot).getHistory = m.getHistory) ∧
    ((m.setSnapshot m.getSnapshot).dataContext = m.dataContext) ∧
    ((m.setSnapshot m.getSnapshot).healthIndex = m.healthIndex) ∧
    (m.lastSource ≠ "" → m.setSnapshot m.getSnapshot = m ∧
      (m.setSnapshot m.getSnapshot).getState = m.getState) := by
  refine ⟨rfl, rfl, rfl, fun h => ?_⟩
  have e : m.setSnapshot m.getSnapshot = m := by
    simp [GlacierModel.setSnapshot, GlacierModel.getSnapshot, GlacierModel.getHistory, h]
  exact ⟨e, by rw [e]⟩

/-- C8 witness: the identity instantiated at the default model, whose
`lastSource` is the nonempty string `"Observed"`. -/
theorem setSnapshot_getSnapshot_spec_witness :
    freshModel.lastSource ≠ "" ∧
    freshModel.setSnapshot freshModel.getSnapshot = freshModel :=
  ⟨by decide, ((setSnapshot_getSnapshot_spec freshModel).2.2.2 (by decide)).1⟩

/-- C6: `getAlerts` emits, in fixed order, the health-index family
(`else if`: critical and warning mutually exclusive), the high-melt
check, the accelerated-loss check, and the reliability check; on a
fresh model forced to health 45 only the critical alert fires, at 65
only the warning, at 80 neither. -/
theorem getAlerts_spec :
    (∀ m : GlacierModel,
      m.getAlerts =
        (if m.getState.healthIndex < 50 then [criticalLossAlert]
          else if m.getState.healthIndex < 70 then [integrityWarningAlert]
          else []) ++
        (if m.getState.dailyChange < -(5/2) then [highMeltAlert] else []) ++
        (if m.getState.sevenDayTrend < -(6/5) then [acceleratedLossAlert] else []) ++
        (if m.dataContext.isFallback || m.dataContext.isStale then
          [lowReliabilityAlert m.dataContext.isStale]
          else [])) ∧
    (∀ m : GlacierModel,
      ¬(criticalLossAlert ∈ m.getAlerts ∧ integrityWarningAlert ∈ m.getAlerts)) ∧
    m45.getAlerts = [criticalLossAlert] ∧
    m65.getAlerts = [integrityWarningAlert] ∧
    m80.getAlerts = [] := by
  refine ⟨fun m => rfl, fun m => ?_, ?_, ?_, ?_⟩
  · rintro ⟨hc, hw⟩
    have hne1 : criticalLossAlert ≠ integrityWarningAlert := by decide
    have hne2 : criticalLossAlert ≠ highMeltAlert := by decide
    have hne3 : criticalLossAlert ≠ acceleratedLossAlert := by decide
    have hne4 : criticalLossAlert ≠ lowReliabilityAlert m.dataContext.isStale := by
      cases m.dataContext.isStale <;> decide
    have hwne1 : integrityWarningAlert ≠ highMeltAlert := by decide
    have hwne2 : integrityWarningAlert ≠ acceleratedLossAlert := by decide
    have hwne3 : integrityWarningAlert ≠ lowReliabilityAlert m.dataContext.isStale := by
      cases m.dataContext.isStale <;> decide
    simp only [GlacierModel.getAlerts, List.mem_append] at hc hw
    split_ifs at hc hw <;> simp_all
  · norm_num [GlacierModel.getAlerts, GlacierModel.getState, GlacierModel.getSevenDayTrend,
      takeLast, m45, freshModel, GlacierModel.new, DEFAULTS]
  · norm_num [GlacierModel.getAlerts, GlacierModel.getState, GlacierModel.getSevenDayTrend,
      takeLast, m65, freshModel, GlacierModel.new, DEFAULTS]
  · norm_num [GlacierModel.getAlerts, GlacierModel.getState, GlacierModel.getSevenDayTrend,
      takeLast, m80, freshModel, GlacierModel.new, DEFAULTS]

/-- C7: `getConfidence` always returns a nonempty reasons list holding
exactly one variance-band reason selected by the `1.2`/`0.6` (squared)
thresholds, even with all context booleans false and `ageHours` null;
the level is `"Low"` iff fallback/scenario/stale or variance `≥ 1.5`,
else `"Medium"` iff forecast or variance `≥ 0.6`, else `"High"` — the
level thresholds being independent of the reasons-list thresholds. -/
theorem getConfidence_spec (m : GlacierModel) :
    (m.getConfidence.reasons ≠ []) ∧
    (m.getConfidence.reasons.countP isVarianceBandReason = 1) ∧
    (m.getTrendVarianceSq ≥ (6/5) ^ 2 →
      "High volatility in 7-day trend" ∈ m.getConfidence.reasons) ∧
    (¬(m.getTrendVarianceSq ≥ (6/5) ^ 2) → m.getTrendVarianceSq ≥ (3/5) ^ 2 →
      "Moderate trend variability" ∈ m.getConfidence.reasons) ∧
    (¬(m.getTrendVarianceSq ≥ (3/5) ^ 2) →
      "Low trend variability" ∈ m.getConfidence.reasons) ∧
    ((m.getConfidence.level = "Low") ↔
      (m.dataContext.isFallback ∨ m.dataContext.isScenario ∨ m.dataContext.isStale ∨
        m.getTrendVarianceSq ≥ (3/2) ^ 2)) ∧
    ((m.getConfidence.level = "Medium") ↔
      (¬(m.dataContext.isFallback ∨ m.dataContext.isScenario ∨ m.dataContext.isStale ∨
          m.getTrendVarianceSq ≥ (3/2) ^ 2) ∧
        (m.dataContext.isForecast ∨ m.getTrendVarianceSq ≥ (3/5) ^ 2))) ∧
    ((m.getConfidence.level = "High") ↔
      (¬(m.dataContext.isFallback ∨ m.dataContext.isScenario ∨ m.dataContext.isStale ∨
          m.getTrendVarianceSq ≥ (3/2) ^ 2) ∧
        ¬(m.dataContext.isForecast ∨ m.getTrendVarianceSq ≥ (3/5) ^ 2))) := by
  have hreasons : m.getConfidence.reasons =
      (if m.dataContext.isFallback || m.dataContext.isScenario then
        ["Using simulated or scenario data"] else []) ++
      (if m.dataContext.isForecast then ["Using forecast data"] else []) ++
      (if m.dataContext.isStale then ["Live data is stale"] else []) ++
      freshReason m.dataContext.ageHours m.dataContext.isStale ++
      (if m.getTrendVarianceSq ≥ (6/5) ^ 2 then ["High volatility in 7-day trend"]
        else if m.getTrendVarianceSq ≥ (3/5) ^ 2 then ["Moderate trend variability"]
        else ["Low trend variability"]) := rfl
  have hlevel : m.getConfidence.level =
      (if m.dataContext.isFallback || m.dataContext.isScenario || m.dataContext.isStale
          || decide (m.getTrendVarianceSq ≥ (3/2) ^ 2) then "Low"
        else if m.dataContext.isForecast || decide (m.getTrendVarianceSq ≥ (3/5) ^ 2) then
          "Medium"
        else "High") := rfl
  refine ⟨?_, ?_, fun h2 => ?_, fun h2 h3 => ?_, fun h3 => ?_, ?_, ?_, ?_⟩
  · rw [hreasons]
    rcases m.dataContext.ageHours with _ | age <;> simp only [freshReason] <;>
      split_ifs <;> simp
  · rw [hreasons]
    rcases m.dataContext.ageHours with _ | age <;> simp only [freshReason] <;>
      split_ifs <;> decide
  · simp [hreasons, h2]
  · simp [hreasons, h2, h3]
  · have h2 : ¬(m.getTrendVarianceSq ≥ (6/5) ^ 2) := fun hge =>
      h3 (le_trans (by norm_num) hge)
    simp [hreasons, h2, h3]
  · rw [hlevel]
    cases hfb : m.dataContext.isFallback <;> cases hsc : m.dataContext.isScenario <;>
      cases hst : m.dataContext.isStale <;> cases hfc : m.dataContext.isForecast <;>
      by_cases h1 : m.getTrendVarianceSq ≥ (3/2) ^ 2 <;>
      by_cases h2 : m.getTrendVarianceSq ≥ (3/5) ^ 2 <;>
      simp [hfb, hsc, hst, hfc, h1, h2]
  · rw [hlevel]
    cases hfb : m.dataContext.isFallback <;> cases hsc : m.dataContext.isScenario <;>
      cases hst : m.dataContext.isStale <;> cases hfc : m.dataContext.isForecast <;>
      by_cases h1 : m.getTrendVarianceSq ≥ (3/2) ^ 2 <;>
      by_cases h2 : m.getTrendVarianceSq ≥ (3/5) ^ 2 <;>
      simp [hfb, hsc, hst, hfc, h1, h2]
  · rw [hlevel]
    cases hfb : m.dataContext.isFallback <;> cases hsc : m.dataContext.isScenario <;>
      cases hst : m.dataContext.isStale <;> cases hfc : m.dataContext.isForecast <;>
      by_cases h1 : m.getTrendVarianceSq ≥ (3/2) ^ 2 <;>
      by_cases h2 : m.getTrendVarianceSq ≥ (3/5) ^ 2 <;>
      simp [hfb, hsc, hst, hfc, h1, h2]

/-- C7 witness: on the default model (all booleans false, `ageHours`
null, empty window so variance 0) the reasons list contains the
low-variability band reason. -/
theorem getConfidence_spec_witness :
    ¬(freshModel.getTrendVarianceSq ≥ (3/5) ^ 2) ∧
    "Low trend variability" ∈ freshModel.getConfidence.reasons :=
  ⟨by norm_num [GlacierModel.getTrendVarianceSq, GlacierModel.getTrendWindow, takeLast,
      freshModel, GlacierModel.new],
    (getConfidence_spec freshModel).2.2.2.2.1
      (by norm_num [GlacierModel.getTrendVarianceSq, GlacierModel.getTrendWindow, takeLast,
        freshModel, GlacierModel.new])⟩

theorem takeLast_length_le (n : ℕ) (l : List α) : (takeLast n l).length ≤ n := by
  unfold takeLast
  rw [List.length_drop]
  omega

theorem takeLast_takeLast_append (n : ℕ) (l E : List α) :
    takeLast n (takeLast n l ++ E) = takeLast n (l ++ E) := by
  rcases le_or_lt l.length n with h | h
  · unfold takeLast
    rw [Nat.sub_eq_zero_of_le h, List.drop_zero]
  · unfold takeLast
    have h1 : (l.drop (l.length - n)).length = n := by
      rw [List.length_drop]
      omega
    rw [List.length_append, List.length_append, h1]
    have e1 : n + E.length - n = E.length := by omega
    have e2 : l.length + E.length - n = l.length - n + E.length := by omega
    rw [e1, e2, ← List.drop_drop]
    congr 1
    exact (List.drop_append_of_le_length (by omega)).symm

theorem applyDailyObservation_history (m : GlacierModel) (obs : Observation) (src : String)
    (hmax : m.maxHistory = 30) (hlen : m.history.length ≤ 30) :
    (m.applyDailyObservation obs src).history =
      takeLast 30 (m.history ++ [m.newEntry obs src]) := by
  show (if (m.history ++ [m.newEntry obs src]).length > m.maxHistory then
      (m.history ++ [m.newEntry obs src]).tail
    else m.history ++ [m.newEntry obs src]) = takeLast 30 (m.history ++ [m.newEntry obs src])
  rw [hmax]
  have hL : (m.history ++ [m.newEntry obs src]).length = m.history.length + 1 := by simp
  by_cases hc : (m.history ++ [m.newEntry obs src]).length > 30
  · rw [if_pos hc]
    unfold takeLast
    rw [show (m.history ++ [m.newEntry obs src]).length - 30 = 1 from by omega]
    exact (List.drop_one _).symm
  · rw [if_neg hc]
    unfold takeLast
    rw [show (m.history ++ [m.newEntry obs src]).length - 30 = 0 from by omega,
      List.drop_zero]

theorem entriesOf_length : ∀ (xs : List (Observation × String)) (m : GlacierModel),
    (entriesOf m xs).length = xs.length
  | [], _ => rfl
  | p :: rest, m => by
    simp only [entriesOf, List.length_cons]
    rw [entriesOf_length rest (m.applyDailyObservation p.1 p.2)]

theorem applySeq_history : ∀ (xs : List (Observation × String)) (m : GlacierModel),
    m.maxHistory = 30 → m.history.length ≤ 30 →
    (applySeq m xs).history = takeLast 30 (m.history ++ entriesOf m xs)
  | [], m, _, hlen => by
    simp only [applySeq, List.foldl_nil, entriesOf, List.append_nil]
    unfold takeLast
    rw [Nat.sub_eq_zero_of_le hlen, List.drop_zero]
  | p :: rest, m, hmax, hlen => by
    have hstep := applyDailyObservation_history m p.1 p.2 hmax hlen
    have hmax' : (m.applyDailyObservation p.1 p.2).maxHistory = 30 := hmax
    have hlen' : (m.applyDailyObservation p.1 p.2).history.length ≤ 30 := by
      rw [hstep]
      exact takeLast_length_le 30 _
    calc (applySeq m (p :: rest)).history
        = (applySeq (m.applyDailyObservation p.1 p.2) rest).history := rfl
      _ = takeLast 30 ((m.applyDailyObservation p.1 p.2).history ++
            entriesOf (m.applyDailyObservation p.1 p.2) rest) :=
          applySeq_history rest (m.applyDailyObservation p.1 p.2) hmax' hlen'
      _ = takeLast 30 (takeLast 30 (m.history ++ [m.newEntry p.1 p.2]) ++
            entriesOf (m.applyDailyObservation p.1 p.2) rest) := by rw [hstep]
      _ = takeLast 30 ((m.history ++ [m.newEntry p.1 p.2]) ++
            entriesOf (m.applyDailyObservation p.1 p.2) rest) :=
          takeLast_takeLast_append 30 _ _
      _ = takeLast 30 (m.history ++ entriesOf m (p :: rest)) := by
          rw [List.append_assoc, List.singleton_append]
          rfl

/-- C3: from any freshly constructed model, the history never exceeds
30 entries, and after exactly 31 applies the history is precisely the
31 appended entries with the first (oldest) one evicted — entries 2
through 31 surviving in their original order (FIFO). -/
theorem applySeq_history_fifo :
    (∀ (p : Params) (xs : List (Observation × String)),
      (applySeq (GlacierModel.new p) xs).history.length ≤ 30) ∧
    (∀ (p : Params) (xs : List (Observation × String)), xs.length = 31 →
      (applySeq (GlacierModel.new p) xs).history =
        (entriesOf (GlacierModel.new p) xs).drop 1) := by
  have hbase : ∀ p : Params, (GlacierModel.new p).maxHistory = 30 ∧
      (GlacierModel.new p).history.length ≤ 30 :=
    fun p => ⟨rfl, by simp [GlacierModel.new]⟩
  constructor
  · intro p xs
    rw [applySeq_history xs (GlacierModel.new p) (hbase p).1 (hbase p).2]
    exact takeLast_length_le 30 _
  · intro p xs hxs
    rw [applySeq_history xs (GlacierModel.new p) (hbase p).1 (hbase p).2]
    have h1 : (GlacierModel.new p).history = [] := rfl
    rw [h1, List.nil_append]
    unfold takeLast
    rw [entriesOf_length, hxs]

/-- C3 witness: thirty-one concrete applies, with the oldest entry
evicted. -/
theorem applySeq_history_fifo_witness :
    xs31.length = 31 ∧
    (applySeq (GlacierModel.new DEFAULTS) xs31).history =
      (entriesOf (GlacierModel.new DEFAULTS) xs31).drop 1 :=
  ⟨by simp [xs31], applySeq_history_fifo.2 DEFAULTS xs31 (by simp [xs31])⟩
